import Mathlib

/-!
Shallow embedding of the shared-global-state backend (cat mood coordinator,
rest lock, reward ledger, spin cooldown guard) together with proofs of its
specified properties.

Timestamps are modelled as milliseconds (Nat, or Int where JavaScript date
arithmetic can go negative).  The persistent store is modelled as explicit
state passed through each operation; randomness (Math.random-based picks) is
modelled by an arbitrary Nat index reduced modulo the candidate-list length,
which covers every value the source can draw.
-/

/-- Mood values stored in the `current` column of `global_cat_state`. -/
inductive CatMood where
  | playing
  | zen
  | happy
  | tired
  | angry
  | sleeping
  | wake
  deriving DecidableEq, Repr, Fintype

/-- The single row of the `global_cat_state` table. -/
structure GlobalCatState where
  current : CatMood
  is_resting : Bool
  rest_end_time : Option Nat
  rested_by : Option String
  rested_by_name : Option String
  last_updated : Nat
  deriving DecidableEq, Repr

/-- The five moods available to the autonomous cycle (the `states` array in
the tick: `['playing', 'zen', 'happy', 'tired', 'angry']`). -/
def nonRestMoods : List CatMood :=
  [.playing, .zen, .happy, .tired, .angry]

/-- Result of one state-machine tick: the store row afterwards, the
module-level `previousState` variable afterwards, whether the tick wrote to
the store, and which mood (if any) the random cycle chose. -/
structure TickOutcome where
  state : GlobalCatState
  prev : Option CatMood
  wrote : Bool
  chosen : Option CatMood
  deriving DecidableEq, Repr

/-- The mood-cycling tail of the tick (the code after the resting and
wake-dwell early returns): filter out the current and effective previous
moods, fall back to filtering only the current mood if that empties the
list, pick by random index, and double-check the pick differs from the
current mood. -/
def moodStep (st : GlobalCatState) (prevSt : Option CatMood) (now : Nat)
    (pick : Nat) : TickOutcome :=
  let effectivePreviousState : Option CatMood :=
    if st.current = .wake then some .sleeping else prevSt
  let availableStates := nonRestMoods.filter
    (fun s => s ≠ st.current ∧ some s ≠ effectivePreviousState)
  let finalAvailableStates :=
    if 0 < availableStates.length then availableStates
    else nonRestMoods.filter (fun s => s ≠ st.current)
  if finalAvailableStates.length = 0 then
    ⟨st, prevSt, false, none⟩
  else
    let newState := finalAvailableStates.getD
      (pick % finalAvailableStates.length) .playing
    if newState = st.current then
      ⟨st, prevSt, false, none⟩
    else
      ⟨{ st with current := newState, last_updated := now },
        some st.current, true, some newState⟩

/-- One iteration of the `stateMachineInterval` loop: handle rest expiry,
then the 10-second wake dwell, then the random mood cycle. -/
def tick (st : GlobalCatState) (prevSt : Option CatMood) (now : Nat)
    (pick : Nat) : TickOutcome :=
  match st.is_resting, st.rest_end_time with
  | true, some restEndTime =>
    if restEndTime ≤ now then
      ⟨{ current := .wake, is_resting := false, rest_end_time := none,
         rested_by := none, rested_by_name := none, last_updated := now },
        some .sleeping, true, none⟩
    else
      ⟨st, prevSt, false, none⟩
  | _, _ =>
    if st.current = .wake ∧ now - st.last_updated < 10000 then
      ⟨st, prevSt, false, none⟩
    else
      moodStep st prevSt now pick

/-- Iterate the state-machine tick over a list of (now, random pick) inputs,
collecting the moods chosen by the autonomous cycle in order. -/
def runTicks (st : GlobalCatState) (prevSt : Option CatMood) :
    List (Nat × Nat) → List CatMood
  | [] => []
  | input :: rest =>
    let o := tick st prevSt input.1 input.2
    match o.chosen with
    | some m => m :: runTicks o.state o.prev rest
    | none => runTicks o.state o.prev rest

/-- Replies the `activate-rest` socket handler can emit to its caller. -/
inductive RestReply where
  | restActivated
  | alreadySleeping
  | stillWakingUp
  | raceLost
  deriving DecidableEq, Repr

/-- Result of one `activate-rest` attempt: the reply emitted to the caller,
the store row afterwards, and whether a denial entry was appended to the
action log. -/
structure RestAttemptResult where
  reply : RestReply
  store : GlobalCatState
  denialLogged : Bool
  deriving DecidableEq, Repr

/-- The row written by a successful rest activation: `current = sleeping`,
`is_resting = true`, `rest_end_time = now + 60s`, actor identity recorded. -/
def restingState (userId userName : String) (now : Nat) : GlobalCatState :=
  { current := .sleeping, is_resting := true, rest_end_time := some (now + 60000),
    rested_by := some userId, rested_by_name := some userName, last_updated := now }

/-- One `activate-rest` attempt.  `snapshot` is the state the handler read
with `getCurrentCatState()` (its precondition checks run against it); `live`
is the stored row at the moment the conditional update executes.  The store's
conditional update (`.eq('is_resting', false)`) accepts the write only when
the live row still has `is_resting = false`, and a rejected write surfaces as
an error, which the handler reports as the race-lost denial. -/
def activateRest (snapshot live : GlobalCatState) (userId userName : String)
    (now : Nat) : RestAttemptResult :=
  if snapshot.is_resting then
    ⟨.alreadySleeping, live, true⟩
  else if snapshot.current = .wake then
    ⟨.stillWakingUp, live, true⟩
  else if live.is_resting then
    ⟨.raceLost, live, true⟩
  else
    ⟨.restActivated, restingState userId userName now, false⟩

/-- N concurrent `activate-rest` attempts in the interleaving where every
handler's read happens before any write: each attempt keeps the common
`snapshot` it read, and the store serializes the conditional writes in list
order.  Returns the replies in order and the final stored row. -/
def runRestAttempts (snapshot live : GlobalCatState)
    (attempts : List (String × String)) (now : Nat) :
    List RestReply × GlobalCatState :=
  match attempts with
  | [] => ([], live)
  | a :: rest =>
    let r := activateRest snapshot live a.1 a.2 now
    let next := runRestAttempts snapshot r.store rest now
    (r.reply :: next.1, next.2)

/-- JSON payload stored in the `reward_value` column of
`user_active_rewards` (`JSON.stringify` of the handler's object literal; the
stringify/parse round trip is the identity on these shapes, so the object is
modelled directly).  `nicknameTag` models the royal-title payload. -/
inductive RewardValue where
  | avatarValue (avatar : String) (originalAvatar : Option String)
  | nicknameStyle (style : String) (fontSize : String)
  | nicknameTag (tag : String)
  | yarnEnabled
  | cursorValue (cursor : String)
  | colorSwap (swap : String)
  deriving DecidableEq, Repr

/-- A row of the `user_active_rewards` table. -/
structure ActiveReward where
  user_id : String
  reward_type : String
  reward_value : RewardValue
  expires_at : Nat
  created_at : Nat
  deriving DecidableEq, Repr

/-- A row of the `wheel_spins` table. -/
structure SpinRecord where
  user_id : String
  reward : String
  created_at : Nat
  deriving DecidableEq, Repr

/-- Cooldown window between spins (`COOLDOWN_MS`). -/
def COOLDOWN_MS : Nat := 30 * 1000

/-- Lifetime of a granted active reward (`REWARD_DURATION_MS`). -/
def REWARD_DURATION_MS : Nat := 30 * 1000

/-- The designated free-re-spin prize whose presence as the latest spin
bypasses the cooldown. -/
def freeRespinPrize : String := "Spin Again, Brave Soul"

/-- Supabase upsert on `user_active_rewards` with conflict target
`user_id,reward_type`: rows matching the key are updated in place with the
payload columns (`reward_value`, `expires_at`; `created_at` is not in the
payload and keeps its stored value), and the row is inserted when no row
matches.  The table's unique index keeps at most one row per key. -/
def upsertActiveReward (store : List ActiveReward) (row : ActiveReward) :
    List ActiveReward :=
  if store.any (fun r => r.user_id = row.user_id ∧ r.reward_type = row.reward_type) then
    store.map (fun r =>
      if r.user_id = row.user_id ∧ r.reward_type = row.reward_type then
        { row with created_at := r.created_at }
      else r)
  else
    store ++ [row]

/-- The `createActiveReward` helper: upsert with
`expires_at = now + durationMs`. -/
def createActiveReward (store : List ActiveReward)
    (userId rewardType : String) (rewardValue : RewardValue)
    (durationMs now : Nat) : List ActiveReward :=
  upsertActiveReward store
    { user_id := userId, reward_type := rewardType, reward_value := rewardValue,
      expires_at := now + durationMs, created_at := now }

/-- The active-rewards query of `GET /active-rewards`: rows of the user with
`expires_at` strictly greater than now (`.eq('user_id', ...)` and
`.gt('expires_at', now)`); expired rows are excluded by the reader even when
still stored. -/
def listActive (store : List ActiveReward) (userId : String) (now : Nat) :
    List ActiveReward :=
  store.filter (fun r => r.user_id = userId ∧ now < r.expires_at)

/-- The single-row avatar query of `GET /active-avatar`
(`.eq('reward_type', 'avatar')` on top of the user and expiry filters). -/
def activeAvatarRows (store : List ActiveReward) (userId : String) (now : Nat) :
    List ActiveReward :=
  store.filter (fun r =>
    r.user_id = userId ∧ r.reward_type = "avatar" ∧ now < r.expires_at)

/-- Number of stored rows matching an (userId, rewardType) key. -/
def rewardKeyCount (store : List ActiveReward) (userId rewardType : String) : Nat :=
  (store.filter (fun r => r.user_id = userId ∧ r.reward_type = rewardType)).length

/-- The `wheel_spins` query in `checkCooldown`: the user's rows ordered by
`created_at` descending, limit 1 (latest row kept left-to-right by the
fold; on a `created_at` tie the later stored row wins, matching an
unspecified database tie order). -/
def latestSpin (spins : List SpinRecord) (userId : String) : Option SpinRecord :=
  (spins.filter (fun s => s.user_id = userId)).foldl
    (fun acc s =>
      match acc with
      | none => some s
      | some b => if b.created_at ≤ s.created_at then some s else some b)
    none

/-- Result of `checkCooldown`. -/
structure CooldownResult where
  canSpin : Bool
  remainingMs : Int
  deriving DecidableEq, Repr

/-- The cooldown decision given the fetched latest spin: allow when there is
none, allow when it recorded the free-re-spin prize, otherwise allow iff
`COOLDOWN_MS - (now - created_at) <= 0`, reporting the clamped remainder. -/
def checkCooldownOn (lastSpin : Option SpinRecord) (now : Nat) : CooldownResult :=
  match lastSpin with
  | none => ⟨true, 0⟩
  | some s =>
    if s.reward = freeRespinPrize then ⟨true, 0⟩
    else
      let timeDiff : Int := (now : Int) - (s.created_at : Int)
      let remainingMs : Int := (COOLDOWN_MS : Int) - timeDiff
      ⟨remainingMs ≤ 0, max 0 remainingMs⟩

/-- The `checkCooldown(userId)` helper: fetch the user's most recent
`wheel_spins` row and decide on it alone. -/
def checkCooldown (spins : List SpinRecord) (userId : String) (now : Nat) :
    CooldownResult :=
  checkCooldownOn (latestSpin spins userId) now

/-- `Math.ceil(remainingMs / 1000)` for the non-negative remainder
reported on rejection. -/
def remainingSecondsOf (remainingMs : Int) : Nat :=
  (remainingMs.toNat + 999) / 1000

/-- The two stores touched by `POST /spin`. -/
structure WheelState where
  spins : List SpinRecord
  rewards : List ActiveReward
  deriving DecidableEq, Repr

/-- HTTP response of `POST /spin`: a 429 rejection carrying the remaining
cooldown in whole seconds, or a success payload with the inserted spin, the
immediate-re-spin flag and the advertised cooldown. -/
inductive SpinResponse where
  | rejected (cooldownSeconds : Nat)
  | accepted (spin : SpinRecord) (canSpin : Bool) (cooldownSeconds : Nat)
  deriving DecidableEq, Repr

/-- Outcome of a `POST /spin` request: the response, both stores afterwards,
and whether a handler failure was caught and logged. -/
structure SpinOutcome where
  response : SpinResponse
  state : WheelState
  handlerErrorLogged : Bool
  deriving DecidableEq, Repr

/-- The grants performed by the reward-specific handler looked up by exact
prize name (`rewardHandlers[reward]`); prizes without a handler, and the two
log-only handlers, leave the ledger unchanged.  `newAvatar` and
`defaultAvatar` stand for the randomly drawn and hash-derived avatar paths
the avatar handler computes. -/
def rewardHandlerGrants (rewards : List ActiveReward) (userId reward : String)
    (newAvatar defaultAvatar : String) (now : Nat) : List ActiveReward :=
  if reward = "New Me, Who Dis?" then
    createActiveReward rewards userId "avatar"
      (.avatarValue newAvatar (some defaultAvatar)) REWARD_DURATION_MS now
  else if reward = "Fancy Schmancy Nickname" then
    createActiveReward rewards userId "nickname"
      (.nicknameStyle "cursive" "1.5") REWARD_DURATION_MS now
  else if reward = "Royal Meowjesty" then
    createActiveReward rewards userId "nickname"
      (.nicknameTag "Royal Meowjesty") REWARD_DURATION_MS now
  else if reward = "Chase the Yarn!" then
    createActiveReward rewards userId "yarn" .yarnEnabled REWARD_DURATION_MS now
  else if reward = "Paw-some Cursor" then
    createActiveReward rewards userId "cursor"
      (.cursorValue "/images/paw.png") REWARD_DURATION_MS now
  else if reward = "Color Catastrophe" then
    createActiveReward rewards userId "color"
      (.colorSwap "pink-blue") REWARD_DURATION_MS now
  else
    rewards

/-- The `POST /spin` handler after authentication and body validation:
check the cooldown; on rejection answer 429 with the rounded-up remaining
seconds; otherwise insert the spin row, run the reward handler inside
try/catch (`handlerFails` tells whether it threw: a thrown grant leaves the
ledger unchanged and is only logged), and answer success regardless. -/
def postSpin (st : WheelState) (userId reward : String) (now : Nat)
    (newAvatar defaultAvatar : String) (handlerFails : Bool) : SpinOutcome :=
  let cd := checkCooldown st.spins userId now
  if cd.canSpin = false then
    ⟨.rejected (remainingSecondsOf cd.remainingMs), st, false⟩
  else
    let newSpin : SpinRecord := ⟨userId, reward, now⟩
    let spins2 := st.spins ++ [newSpin]
    let canSpinAgain := reward = freeRespinPrize
    let rewards2 :=
      if handlerFails then st.rewards
      else rewardHandlerGrants st.rewards userId reward newAvatar defaultAvatar now
    ⟨.accepted newSpin canSpinAgain (if canSpinAgain then 0 else 30),
      ⟨spins2, rewards2⟩, handlerFails⟩

/-- ECMAScript ToInt32: reduce modulo 2^32 into the signed range. -/
def toInt32 (n : Int) : Int :=
  (n + 2 ^ 31) % 2 ^ 32 - 2 ^ 31

/-- One iteration of the avatar hash loop:
`hash = ((hash << 5) - hash) + charCode; hash = hash & hash` (the shift works
on the 32-bit representation and `x & x` is ToInt32). -/
def hashStep (hash : Int) (c : Nat) : Int :=
  toInt32 (toInt32 (hash * 32) - hash + c)

/-- UTF-16 code units of the string `'default'`. -/
def defaultIdentifier : List Nat :=
  [100, 101, 102, 97, 117, 108, 116]

/-- The identifier `userId || nickname || 'default'` (JavaScript `||`
falls through on `undefined` and on the empty string); strings are modelled
as their lists of UTF-16 code units. -/
def avatarIdentifier (userId : Option (List Nat)) (nickname : List Nat) :
    List Nat :=
  match userId with
  | some l => if l ≠ [] then l else if nickname ≠ [] then nickname else defaultIdentifier
  | none => if nickname ≠ [] then nickname else defaultIdentifier

/-- The cat number computed by `getUserDefaultAvatar`:
`(Math.abs(hash) % 10) + 1`. -/
def getUserDefaultAvatarNumber (userId : Option (List Nat))
    (nickname : List Nat) : Nat :=
  (((avatarIdentifier userId nickname).foldl hashStep 0).natAbs % 10) + 1

/-- The `getUserDefaultAvatar` helper: deterministic hash of the identifier
mapped to one of the ten stock cat icons. -/
def getUserDefaultAvatar (userId : Option (List Nat)) (nickname : List Nat) :
    String :=
  "/images/user-profile-icons/cat" ++
    toString (getUserDefaultAvatarNumber userId nickname) ++ ".svg"

/-- One entry of the `rewards` object returned by `GET /active-rewards`. -/
structure RewardEntry where
  value : RewardValue
  expiresAt : Option Nat
  createdAt : Option Nat
  deriving DecidableEq, Repr

/-- Keyed assignment `rewards[key] = entry` on the response object, modelled
as an association list with unique keys. -/
def setEntry : List (String × RewardEntry) → String → RewardEntry →
    List (String × RewardEntry)
  | [], k, v => [(k, v)]
  | p :: tl, k, v => if p.1 = k then (k, v) :: tl else p :: setEntry tl k v

/-- Property access `rewards[key]` on the response object. -/
def findEntry : List (String × RewardEntry) → String → Option RewardEntry
  | [], _ => none
  | p :: tl, k => if p.1 = k then some p.2 else findEntry tl k

/-- The loop of `GET /active-rewards` that turns the fetched rows into the
`rewards` object keyed by `reward_type` (the query's `created_at` ordering
only fixes the iteration order, which the keyed object does not expose under
the one-row-per-key constraint). -/
def buildRewardsMap (rows : List ActiveReward) : List (String × RewardEntry) :=
  rows.foldl
    (fun m r => setEntry m r.reward_type ⟨r.reward_value, some r.expires_at, some r.created_at⟩)
    []

/-- The `rewards` object answered by `GET /active-rewards`: the unexpired
rows of the user keyed by type, with the avatar entry defaulted to the
user's computed default avatar (null expiry) when absent, and its
`originalAvatar` field filled in when present without one. -/
def activeRewardsResponse (store : List ActiveReward) (userId : String)
    (now : Nat) (defaultAvatar : String) : List (String × RewardEntry) :=
  let rewards := buildRewardsMap (listActive store userId now)
  match findEntry rewards "avatar" with
  | none =>
    setEntry rewards "avatar" ⟨.avatarValue defaultAvatar none, none, none⟩
  | some entry =>
    match entry.value with
    | .avatarValue a none =>
      setEntry rewards "avatar"
        ⟨.avatarValue a (some defaultAvatar), entry.expiresAt, entry.createdAt⟩
    | _ => rewards

theorem runRestAttempts_all_raceLost (attempts : List (String × String))
    (snapshot live : GlobalCatState) (now : Nat)
    (h1 : snapshot.is_resting = false) (h2 : snapshot.current ≠ .wake)
    (h3 : live.is_resting = true) :
    runRestAttempts snapshot live attempts now =
      (attempts.map (fun _ => .raceLost), live) := by
  induction attempts generalizing live with
  | nil => simp [runRestAttempts]
  | cons a rest ih =>
    simp [runRestAttempts, activateRest, h1, h2, h3, ih live h3]

/-- C2: while the stored state is resting and the rest period has not yet
expired, a state-machine tick writes nothing and leaves every field (and the
tracked previous state) unchanged; the tick mutates state only once
`now >= restEndTime`. -/
theorem tick_rest_precedence (st : GlobalCatState) (prevSt : Option CatMood)
    (now pick endTime : Nat) (hR : st.is_resting = true)
    (hE : st.rest_end_time = some endTime) :
    (now < endTime → tick st prevSt now pick = ⟨st, prevSt, false, none⟩) ∧
    (endTime ≤ now → (tick st prevSt now pick).wrote = true) := by
  constructor
  · intro h
    simp [tick, hR, hE, Nat.not_le.mpr h]
  · intro h
    simp [tick, hR, hE, h]

/-- C2 witness at a concrete resting state 30 seconds before expiry. -/
theorem tick_rest_precedence_witness :
    (⟨.sleeping, true, some 60000, some "u1", some "Ana", 0⟩ : GlobalCatState).is_resting = true ∧
    ((30000 : Nat) < 60000 →
      tick ⟨.sleeping, true, some 60000, some "u1", some "Ana", 0⟩ (some .playing) 30000 4 =
        ⟨⟨.sleeping, true, some 60000, some "u1", some "Ana", 0⟩, some .playing, false, none⟩) ∧
    ((60000 : Nat) ≤ 60000 →
      (tick ⟨.sleeping, true, some 60000, some "u1", some "Ana", 0⟩ (some .playing) 60000 4).wrote = true) :=
  ⟨rfl,
    (tick_rest_precedence ⟨.sleeping, true, some 60000, some "u1", some "Ana", 0⟩
      (some .playing) 30000 4 60000 rfl rfl).1,
    (tick_rest_precedence ⟨.sleeping, true, some 60000, some "u1", some "Ana", 0⟩
      (some .playing) 60000 4 60000 rfl rfl).2⟩

/-- C7: on the first tick at or past `restEndTime` the state machine writes
the `wake` row (clearing `is_resting`, `rest_end_time`, `rested_by`,
`rested_by_name`), records `sleeping` as the previous state, and chooses no
mood that tick; and while `current = wake` with less than 10 seconds since
`last_updated`, a tick does nothing at all. -/
theorem wake_dwell_spec (st : GlobalCatState) (prevSt : Option CatMood)
    (now pick endTime : Nat) :
    (st.is_resting = true → st.rest_end_time = some endTime → endTime ≤ now →
      tick st prevSt now pick =
        ⟨⟨.wake, false, none, none, none, now⟩, some .sleeping, true, none⟩) ∧
    (st.is_resting = false → st.current = .wake → now - st.last_updated < 10000 →
      tick st prevSt now pick = ⟨st, prevSt, false, none⟩) := by
  constructor
  · intro h1 h2 h3
    simp [tick, h1, h2, h3]
  · intro h1 h2 h3
    simp [tick, h1, h2, h3]

/-- C7 witness: rest expiring at t = 60000, then a tick 5 seconds into the
wake dwell. -/
theorem wake_dwell_spec_witness :
    (tick ⟨.sleeping, true, some 60000, some "u1", some "Ana", 0⟩ (some .playing) 60000 4 =
        ⟨⟨.wake, false, none, none, none, 60000⟩, some .sleeping, true, none⟩) ∧
    (tick ⟨.wake, false, none, none, none, 60000⟩ (some .sleeping) 65000 4 =
        ⟨⟨.wake, false, none, none, none, 60000⟩, some .sleeping, false, none⟩) :=
  ⟨(wake_dwell_spec ⟨.sleeping, true, some 60000, some "u1", some "Ana", 0⟩
      (some .playing) 60000 4 60000).1 rfl rfl (by decide),
    (wake_dwell_spec ⟨.wake, false, none, none, none, 60000⟩
      (some .sleeping) 65000 4 60000).2 rfl rfl (by decide)⟩

/-- C8: an `activate-rest` attempt evaluated against the current stored
state is denied with `alreadySleeping` when `is_resting` holds, and (when
not resting) with `stillWakingUp` when `current = wake`; both denials leave
the stored state unchanged and append a denial log entry. -/
theorem activateRest_denials (st : GlobalCatState) (userId userName : String)
    (now : Nat) :
    (st.is_resting = true →
      activateRest st st userId userName now = ⟨.alreadySleeping, st, true⟩) ∧
    (st.is_resting = false → st.current = .wake →
      activateRest st st userId userName now = ⟨.stillWakingUp, st, true⟩) := by
  constructor
  · intro h
    simp [activateRest, h]
  · intro h1 h2
    simp [activateRest, h1, h2]

/-- C8 witness: a resting state and a freshly woken state. -/
theorem activateRest_denials_witness :
    (activateRest ⟨.sleeping, true, some 60000, some "u1", some "Ana", 0⟩
        ⟨.sleeping, true, some 60000, some "u1", some "Ana", 0⟩ "u2" "Boris" 30000 =
      ⟨.alreadySleeping, ⟨.sleeping, true, some 60000, some "u1", some "Ana", 0⟩, true⟩) ∧
    (activateRest ⟨.wake, false, none, none, none, 60000⟩
        ⟨.wake, false, none, none, none, 60000⟩ "u2" "Boris" 65000 =
      ⟨.stillWakingUp, ⟨.wake, false, none, none, none, 60000⟩, true⟩) :=
  ⟨(activateRest_denials ⟨.sleeping, true, some 60000, some "u1", some "Ana", 0⟩
      "u2" "Boris" 30000).1 rfl,
    (activateRest_denials ⟨.wake, false, none, none, none, 60000⟩
      "u2" "Boris" 65000).2 rfl rfl⟩

/-- C1 counterexample: with the stored state `current = wake`,
`is_resting = false`, two concurrent `activate-rest` attempts are both
denied `stillWakingUp` — no attempt succeeds and none is denied `raceLost`,
so the claim as stated (exactly one success whenever `isResting == false`)
fails on this state. -/
theorem restlock_wake_counterexample :
    (⟨.wake, false, none, none, none, 0⟩ : GlobalCatState).is_resting = false ∧
    (runRestAttempts ⟨.wake, false, none, none, none, 0⟩
        ⟨.wake, false, none, none, none, 0⟩ [("u1", "Ana"), ("u2", "Boris")] 1000).1 =
      [.stillWakingUp, .stillWakingUp] ∧
    (runRestAttempts ⟨.wake, false, none, none, none, 0⟩
        ⟨.wake, false, none, none, none, 0⟩ [("u1", "Ana"), ("u2", "Boris")] 1000).1.count
      .restActivated = 0 := by
  decide

/-- C1 (amended): when the snapshot every concurrent attempt read has
`is_resting = false` and `current ≠ wake`, exactly the first serialized
conditional write succeeds (installing the sleeping row with
`rest_end_time = now + 60s` and the winner's identity) and every other
attempt is denied `raceLost`. -/
theorem restlock_single_winner (s0 : GlobalCatState) (a : String × String)
    (rest : List (String × String)) (now : Nat)
    (h1 : s0.is_resting = false) (h2 : s0.current ≠ .wake) :
    (runRestAttempts s0 s0 (a :: rest) now).1 =
        .restActivated :: rest.map (fun _ => .raceLost) ∧
      (runRestAttempts s0 s0 (a :: rest) now).2 = restingState a.1 a.2 now := by
  have hfirst : activateRest s0 s0 a.1 a.2 now =
      ⟨.restActivated, restingState a.1 a.2 now, false⟩ := by
    simp [activateRest, h1, h2]
  have hrest := runRestAttempts_all_raceLost rest s0 (restingState a.1 a.2 now) now h1 h2 rfl
  simp [runRestAttempts, hfirst, hrest]

/-- C1 witness: three concurrent attempts against a playing, non-resting
state; the first wins, the other two lose the race. -/
theorem restlock_single_winner_witness :
    (⟨.playing, false, none, none, none, 0⟩ : GlobalCatState).is_resting = false ∧
    (⟨.playing, false, none, none, none, 0⟩ : GlobalCatState).current ≠ .wake ∧
    ((runRestAttempts ⟨.playing, false, none, none, none, 0⟩
          ⟨.playing, false, none, none, none, 0⟩
          [("u1", "Ana"), ("u2", "Boris"), ("u3", "Vera")] 1000).1 =
        .restActivated ::
          ([("u2", "Boris"), ("u3", "Vera")] : List (String × String)).map
            (fun _ => .raceLost) ∧
      (runRestAttempts ⟨.playing, false, none, none, none, 0⟩
          ⟨.playing, false, none, none, none, 0⟩
          [("u1", "Ana"), ("u2", "Boris"), ("u3", "Vera")] 1000).2 =
        restingState "u1" "Ana" 1000) :=
  ⟨rfl, by decide,
    restlock_single_winner ⟨.playing, false, none, none, none, 0⟩ ("u1", "Ana")
      [("u2", "Boris"), ("u3", "Vera")] 1000 rfl (by decide)⟩

/-- C4: the cooldown check depends only on the user's most recent spin row;
with no row it allows; with the free-re-spin prize as the latest reward it
allows regardless of elapsed time; otherwise it allows exactly when 30
seconds have elapsed, and a rejected spin request is answered with the
remaining wait rounded up to whole seconds and leaves the stores untouched. -/
theorem spin_cooldown_spec (spins : List SpinRecord) (userId : String) (now : Nat) :
    (∀ spins2 : List SpinRecord, latestSpin spins2 userId = latestSpin spins userId →
      checkCooldown spins2 userId now = checkCooldown spins userId now) ∧
    (latestSpin spins userId = none → checkCooldown spins userId now = ⟨true, 0⟩) ∧
    (∀ s, latestSpin spins userId = some s → s.reward = freeRespinPrize →
      checkCooldown spins userId now = ⟨true, 0⟩) ∧
    (∀ s, latestSpin spins userId = some s → s.reward ≠ freeRespinPrize →
      (((checkCooldown spins userId now).canSpin = true ↔
          (s.created_at : Int) + 30000 ≤ (now : Int)) ∧
        (checkCooldown spins userId now).remainingMs =
          max 0 ((30000 : Int) - ((now : Int) - (s.created_at : Int))))) ∧
    (∀ wst : WheelState, wst.spins = spins →
      ∀ reward newAvatar defaultAvatar hf,
        (checkCooldown spins userId now).canSpin = false →
        (postSpin wst userId reward now newAvatar defaultAvatar hf).response =
            .rejected (remainingSecondsOf (checkCooldown spins userId now).remainingMs) ∧
          (postSpin wst userId reward now newAvatar defaultAvatar hf).state = wst) := by
  refine ⟨?_, ?_, ?_, ?_, ?_⟩
  · intro spins2 h
    simp [checkCooldown, h]
  · intro h
    simp [checkCooldown, h, checkCooldownOn]
  · intro s h hr
    simp [checkCooldown, h, checkCooldownOn, hr]
  · intro s h hr
    simp only [checkCooldown, h]
    simp only [checkCooldownOn, if_neg hr, COOLDOWN_MS]
    constructor
    · simp only [decide_eq_true_eq]
      omega
    · norm_num
  · intro wst hw reward newAvatar defaultAvatar hf h
    subst hw
    simp [postSpin, h]

/-- C4 witness: a non-bypass spin at t = 0 and a retry at t = 10s is rejected
with 20 seconds remaining; the free-re-spin prize bypasses the cooldown. -/
theorem spin_cooldown_spec_witness :
    ((⟨[⟨"u", "Paw-some Cursor", 0⟩], []⟩ : WheelState).spins = [⟨"u", "Paw-some Cursor", 0⟩]) ∧
    (checkCooldown [⟨"u", "Paw-some Cursor", 0⟩] "u" 10000).canSpin = false ∧
    (postSpin ⟨[⟨"u", "Paw-some Cursor", 0⟩], []⟩ "u" "Chase the Yarn!" 10000 "a" "d" false).response =
      .rejected 20 ∧
    checkCooldown [⟨"u", "Spin Again, Brave Soul", 0⟩] "u" 1 = ⟨true, 0⟩ := by
  refine ⟨rfl, by decide, ?_, ?_⟩
  · have h := ((spin_cooldown_spec [⟨"u", "Paw-some Cursor", 0⟩] "u" 10000).2.2.2.2
      ⟨[⟨"u", "Paw-some Cursor", 0⟩], []⟩ rfl "Chase the Yarn!" "a" "d" false (by decide)).1
    exact h.trans (by decide)
  · exact (spin_cooldown_spec [⟨"u", "Spin Again, Brave Soul", 0⟩] "u" 1).2.2.1
      ⟨"u", "Spin Again, Brave Soul", 0⟩ (by decide) rfl

/-- C6: the active-rewards listing returns exactly the user's stored rows
with `expires_at > now`; a row whose `expires_at <= now` is never returned
even while it is still stored, and the same holds for the single-row
active-avatar query. -/
theorem listActive_expiry_filter (store : List ActiveReward) (userId : String)
    (now : Nat) (r : ActiveReward) :
    (r ∈ listActive store userId now ↔
      r ∈ store ∧ r.user_id = userId ∧ now < r.expires_at) ∧
    (r ∈ listActive store userId now → ¬ r.expires_at ≤ now) ∧
    (r ∈ activeAvatarRows store userId now → ¬ r.expires_at ≤ now) := by
  refine ⟨?_, ?_, ?_⟩
  · simp [listActive, List.mem_filter]
  · intro h
    have := (List.mem_filter.mp h).2
    simp only [decide_eq_true_eq] at this
    omega
  · intro h
    have := (List.mem_filter.mp h).2
    simp only [decide_eq_true_eq] at this
    omega

/-- C6 witness: with one live and one expired row stored, the live row is
listed and its expiry is in the future; the expired row is not listed. -/
theorem listActive_expiry_filter_witness :
    (⟨"u", "yarn", .yarnEnabled, 40000, 10000⟩ : ActiveReward) ∈
        listActive [⟨"u", "yarn", .yarnEnabled, 40000, 10000⟩,
          ⟨"u", "color", .colorSwap "pink-blue", 5000, 0⟩] "u" 20000 ∧
    ¬ (40000 : Nat) ≤ 20000 ∧
    (⟨"u", "color", .colorSwap "pink-blue", 5000, 0⟩ : ActiveReward) ∉
      listActive [⟨"u", "yarn", .yarnEnabled, 40000, 10000⟩,
        ⟨"u", "color", .colorSwap "pink-blue", 5000, 0⟩] "u" 20000 :=
  ⟨by decide,
    (listActive_expiry_filter [⟨"u", "yarn", .yarnEnabled, 40000, 10000⟩,
        ⟨"u", "color", .colorSwap "pink-blue", 5000, 0⟩] "u" 20000
      ⟨"u", "yarn", .yarnEnabled, 40000, 10000⟩).2.1 (by decide),
    by decide⟩

/-- C9: once the spin row is inserted, a thrown reward handler is caught and
logged, the inserted row stays, and the request still answers success; the
response is identical to the one a successful handler produces. -/
theorem spin_handler_isolation (wst : WheelState) (userId reward : String)
    (now : Nat) (newAvatar defaultAvatar : String)
    (hcd : (checkCooldown wst.spins userId now).canSpin = true) :
    (postSpin wst userId reward now newAvatar defaultAvatar true).response =
        .accepted ⟨userId, reward, now⟩ (decide (reward = freeRespinPrize))
          (if reward = freeRespinPrize then 0 else 30) ∧
    (postSpin wst userId reward now newAvatar defaultAvatar true).state.spins =
        wst.spins ++ [⟨userId, reward, now⟩] ∧
    (postSpin wst userId reward now newAvatar defaultAvatar true).state.rewards =
        wst.rewards ∧
    (postSpin wst userId reward now newAvatar defaultAvatar true).handlerErrorLogged = true ∧
    (postSpin wst userId reward now newAvatar defaultAvatar true).response =
      (postSpin wst userId reward now newAvatar defaultAvatar false).response := by
  refine ⟨?_, ?_, ?_, ?_, ?_⟩ <;> simp [postSpin, hcd]

/-- C9 witness: a first spin whose avatar-grant handler throws still answers
success and keeps the inserted spin row. -/
theorem spin_handler_isolation_witness :
    (checkCooldown ([] : List SpinRecord) "u" 0).canSpin = true ∧
    (postSpin ⟨[], []⟩ "u" "New Me, Who Dis?" 0 "a" "d" true).response =
        .accepted ⟨"u", "New Me, Who Dis?", 0⟩ (decide ("New Me, Who Dis?" = freeRespinPrize))
          (if "New Me, Who Dis?" = freeRespinPrize then 0 else 30) ∧
    (postSpin ⟨[], []⟩ "u" "New Me, Who Dis?" 0 "a" "d" true).state.spins =
      [] ++ [⟨"u", "New Me, Who Dis?", 0⟩] :=
  ⟨by decide,
    (spin_handler_isolation ⟨[], []⟩ "u" "New Me, Who Dis?" 0 "a" "d" (by decide)).1,
    (spin_handler_isolation ⟨[], []⟩ "u" "New Me, Who Dis?" 0 "a" "d" (by decide)).2.1⟩

theorem rewardKeyCount_upsert_map (store : List ActiveReward) (row : ActiveReward) :
    rewardKeyCount (store.map (fun r =>
        if r.user_id = row.user_id ∧ r.reward_type = row.reward_type then
          { row with created_at := r.created_at }
        else r)) row.user_id row.reward_type =
      rewardKeyCount store row.user_id row.reward_type := by
  induction store with
  | nil => rfl
  | cons x tl ih =>
    by_cases h : x.user_id = row.user_id ∧ x.reward_type = row.reward_type
    · simp [rewardKeyCount, List.filter_cons, h, if_pos h] at ih ⊢
      exact ih
    · simp [rewardKeyCount, List.filter_cons, h, if_neg h] at ih ⊢
      exact ih

theorem rewardKeyCount_upsert (store : List ActiveReward) (row : ActiveReward)
    (h : rewardKeyCount store row.user_id row.reward_type ≤ 1) :
    rewardKeyCount (upsertActiveReward store row) row.user_id row.reward_type = 1 := by
  unfold upsertActiveReward
  by_cases hAny : store.any
      (fun r => decide (r.user_id = row.user_id ∧ r.reward_type = row.reward_type)) = true
  · rw [if_pos hAny, rewardKeyCount_upsert_map]
    obtain ⟨x, hx, hpx⟩ := List.any_eq_true.mp hAny
    have hmem : x ∈ store.filter
        (fun r => decide (r.user_id = row.user_id ∧ r.reward_type = row.reward_type)) :=
      List.mem_filter.mpr ⟨hx, hpx⟩
    have hpos : 0 < rewardKeyCount store row.user_id row.reward_type :=
      List.length_pos.mpr (List.ne_nil_of_mem hmem)
    omega
  · rw [if_neg hAny]
    have hnone : ∀ x ∈ store, ¬(x.user_id = row.user_id ∧ x.reward_type = row.reward_type) := by
      intro x hx
      have := List.any_eq_false.mp ((Bool.not_eq_true _).mp hAny) x hx
      simpa using this
    have hzero : rewardKeyCount store row.user_id row.reward_type = 0 := by
      simp only [rewardKeyCount, List.length_eq_zero, List.filter_eq_nil_iff]
      intro a ha
      simpa using hnone a ha
    simp only [rewardKeyCount, List.filter_append, List.length_append] at hzero ⊢
    rw [hzero]
    simp [List.filter_cons]

theorem upsert_key_rows (store : List ActiveReward) (row : ActiveReward) :
    ∀ r ∈ upsertActiveReward store row,
      r.user_id = row.user_id → r.reward_type = row.reward_type →
        r.expires_at = row.expires_at ∧ r.reward_value = row.reward_value := by
  intro r hr hu ht
  unfold upsertActiveReward at hr
  by_cases hAny : store.any
      (fun r => decide (r.user_id = row.user_id ∧ r.reward_type = row.reward_type)) = true
  · rw [if_pos hAny] at hr
    obtain ⟨x, _, hfx⟩ := List.mem_map.mp hr
    by_cases hx : x.user_id = row.user_id ∧ x.reward_type = row.reward_type
    · rw [if_pos hx] at hfx
      subst hfx
      exact ⟨rfl, rfl⟩
    · rw [if_neg hx] at hfx
      subst hfx
      exact absurd ⟨hu, ht⟩ hx
  · rw [if_neg hAny] at hr
    rcases List.mem_append.mp hr with hin | hnew
    · have hno := List.any_eq_false.mp ((Bool.not_eq_true _).mp hAny) r hin
      have : ¬(r.user_id = row.user_id ∧ r.reward_type = row.reward_type) := by
        simpa using hno
      exact absurd ⟨hu, ht⟩ this
    · have : r = row := by simpa using hnew
      subst this
      exact ⟨rfl, rfl⟩

/-- C5: with the table's at-most-one-row-per-key constraint, two successive
grants of the same (userId, rewardType) leave exactly one row for that key,
and that row carries the second grant's payload and
`expires_at = t2 + duration` — the later grant replaces the earlier one. -/
theorem reward_upsert_spec (store : List ActiveReward) (userId rewardType : String)
    (v1 v2 : RewardValue) (d1 d2 t1 t2 : Nat)
    (hInv : rewardKeyCount store userId rewardType ≤ 1) :
    rewardKeyCount
        (createActiveReward (createActiveReward store userId rewardType v1 d1 t1)
          userId rewardType v2 d2 t2) userId rewardType = 1 ∧
    ∀ r ∈ createActiveReward (createActiveReward store userId rewardType v1 d1 t1)
        userId rewardType v2 d2 t2,
      r.user_id = userId → r.reward_type = rewardType →
        r.expires_at = t2 + d2 ∧ r.reward_value = v2 := by
  have h1 : rewardKeyCount (createActiveReward store userId rewardType v1 d1 t1)
      userId rewardType = 1 :=
    rewardKeyCount_upsert store
      ⟨userId, rewardType, v1, t1 + d1, t1⟩ hInv
  constructor
  · exact rewardKeyCount_upsert _ ⟨userId, rewardType, v2, t2 + d2, t2⟩ h1.le
  · exact upsert_key_rows _ ⟨userId, rewardType, v2, t2 + d2, t2⟩

/-- C5 witness: granting a yarn reward twice to the same user leaves one row
with the second expiry. -/
theorem reward_upsert_spec_witness :
    rewardKeyCount [] "u" "yarn" ≤ 1 ∧
    rewardKeyCount
        (createActiveReward (createActiveReward [] "u" "yarn" .yarnEnabled 30000 0)
          "u" "yarn" .yarnEnabled 30000 20000) "u" "yarn" = 1 ∧
    ∀ r ∈ createActiveReward (createActiveReward [] "u" "yarn" .yarnEnabled 30000 0)
        "u" "yarn" .yarnEnabled 30000 20000,
      r.user_id = "u" → r.reward_type = "yarn" →
        r.expires_at = 20000 + 30000 ∧ r.reward_value = .yarnEnabled :=
  ⟨by decide,
    (reward_upsert_spec [] "u" "yarn" .yarnEnabled .yarnEnabled
      30000 30000 0 20000 (by decide)).1,
    (reward_upsert_spec [] "u" "yarn" .yarnEnabled .yarnEnabled
      30000 30000 0 20000 (by decide)).2⟩

theorem findEntry_setEntry_self (m : List (String × RewardEntry)) (k : String)
    (v : RewardEntry) : findEntry (setEntry m k v) k = some v := by
  induction m with
  | nil => simp [setEntry, findEntry]
  | cons p tl ih =>
    by_cases h : p.1 = k
    · simp [setEntry, findEntry, h]
    · simp [setEntry, findEntry, h, ih]

theorem findEntry_setEntry_ne (m : List (String × RewardEntry)) (k' k : String)
    (v : RewardEntry) (h : k' ≠ k) :
    findEntry (setEntry m k' v) k = findEntry m k := by
  induction m with
  | nil => simp [setEntry, findEntry, h]
  | cons p tl ih =>
    by_cases hp : p.1 = k'
    · simp [setEntry, findEntry, hp, h]
    · simp [setEntry, findEntry, hp, ih]

theorem findEntry_buildRewardsMap_none (rows : List ActiveReward) (k : String)
    (h : ∀ r ∈ rows, r.reward_type ≠ k) :
    findEntry (buildRewardsMap rows) k = none := by
  suffices hgen : ∀ m : List (String × RewardEntry),
      findEntry (rows.foldl (fun m r =>
        setEntry m r.reward_type ⟨r.reward_value, some r.expires_at, some r.created_at⟩) m) k =
      findEntry m k by
    simpa [buildRewardsMap] using hgen []
  induction rows with
  | nil => intro m; rfl
  | cons r tl ih =>
    intro m
    have hr : r.reward_type ≠ k := h r (List.mem_cons_self r tl)
    have htl : ∀ x ∈ tl, x.reward_type ≠ k := fun x hx => h x (List.mem_cons_of_mem r hx)
    simp only [List.foldl_cons]
    rw [ih htl, findEntry_setEntry_ne _ _ _ _ hr]

/-- C10: the active-rewards response always resolves an avatar entry; when
the user has no unexpired avatar reward the entry is the computed default
avatar with null expiry and creation fields; and the default avatar is a
pure function of (userId, nickname) whose value is always one of the ten
stock cat icons. -/
theorem active_rewards_avatar_default (store : List ActiveReward)
    (userId : String) (now : Nat) (userCode : Option (List Nat))
    (nick : List Nat) :
    (findEntry (activeRewardsResponse store userId now
        (getUserDefaultAvatar userCode nick)) "avatar").isSome = true ∧
    ((∀ r ∈ store, r.user_id = userId → r.reward_type = "avatar" →
        r.expires_at ≤ now) →
      findEntry (activeRewardsResponse store userId now
          (getUserDefaultAvatar userCode nick)) "avatar" =
        some ⟨.avatarValue (getUserDefaultAvatar userCode nick) none, none, none⟩) ∧
    (∃ k, 1 ≤ k ∧ k ≤ 10 ∧
      getUserDefaultAvatar userCode nick =
        "/images/user-profile-icons/cat" ++ toString k ++ ".svg") := by
  refine ⟨?_, ?_, ?_⟩
  · unfold activeRewardsResponse
    cases hf : findEntry (buildRewardsMap (listActive store userId now)) "avatar" with
    | none =>
      simp [hf, findEntry_setEntry_self]
    | some entry =>
      cases hv : entry.value with
      | avatarValue a orig =>
        cases orig with
        | none => simp [hf, hv, findEntry_setEntry_self]
        | some o => simp [hf, hv]
      | nicknameStyle s f => simp [hf, hv]
      | nicknameTag t => simp [hf, hv]
      | yarnEnabled => simp [hf, hv]
      | cursorValue c => simp [hf, hv]
      | colorSwap s => simp [hf, hv]
  · intro hexp
    have hnone : findEntry (buildRewardsMap (listActive store userId now)) "avatar" = none := by
      apply findEntry_buildRewardsMap_none
      intro r hr
      have hm := List.mem_filter.mp hr
      have hc := hm.2
      simp only [decide_eq_true_eq] at hc
      intro hty
      exact absurd (hexp r hm.1 hc.1 hty) (Nat.not_le.mpr hc.2)
    simp only [activeRewardsResponse, hnone, findEntry_setEntry_self]
  · refine ⟨getUserDefaultAvatarNumber userCode nick, Nat.le_add_left 1 _, ?_, rfl⟩
    have : ((avatarIdentifier userCode nick).foldl hashStep 0).natAbs % 10 < 10 :=
      Nat.mod_lt _ (by norm_num)
    unfold getUserDefaultAvatarNumber
    omega

/-- C10 witness: a user with no stored rewards gets the default avatar entry
(for identifier code 97 the hash resolves to cat8) with null expiry. -/
theorem active_rewards_avatar_default_witness :
    findEntry (activeRewardsResponse [] "u" 0 (getUserDefaultAvatar (some [97]) []))
        "avatar" =
      some ⟨.avatarValue (getUserDefaultAvatar (some [97]) []) none, none, none⟩ ∧
    getUserDefaultAvatar (some [97]) [] = "/images/user-profile-icons/cat8.svg" :=
  ⟨(active_rewards_avatar_default [] "u" 0 (some [97]) []).2.1
      (by intro r hr; exact absurd hr (List.not_mem_nil r)),
    by decide⟩

theorem filter_avail_pos : ∀ (c : CatMood) (po : Option CatMood),
    0 < (nonRestMoods.filter (fun s => s ≠ c ∧ some s ≠ po)).length := by
  decide

theorem mem_avail_filter {c : CatMood} {po : Option CatMood} {s : CatMood}
    (h : s ∈ nonRestMoods.filter (fun x => x ≠ c ∧ some x ≠ po)) :
    s ∈ nonRestMoods ∧ s ≠ c ∧ some s ≠ po := by
  have := List.mem_filter.mp h
  simpa using this

theorem moodStep_spec (st : GlobalCatState) (prevSt : Option CatMood)
    (now pick : Nat) :
    ∃ m, moodStep st prevSt now pick =
        ⟨{ st with current := m, last_updated := now }, some st.current, true, some m⟩ ∧
      m ∈ nonRestMoods ∧ m ≠ st.current ∧ (st.current ≠ .wake → some m ≠ prevSt) := by
  simp only [moodStep]
  set eff : Option CatMood :=
    if st.current = CatMood.wake then some CatMood.sleeping else prevSt with heff
  set L : List CatMood :=
    nonRestMoods.filter (fun s => s ≠ st.current ∧ some s ≠ eff) with hLdef
  have hpos : 0 < L.length := by
    rw [hLdef]
    exact filter_avail_pos st.current eff
  rw [if_pos hpos, if_neg (Nat.pos_iff_ne_zero.mp hpos)]
  have hlt : pick % L.length < L.length := Nat.mod_lt _ hpos
  rw [List.getD_eq_get L CatMood.playing hlt]
  have hmem : L.get ⟨pick % L.length, hlt⟩ ∈ L := List.get_mem L _ _
  obtain ⟨hmemNR, hne, hnp⟩ := mem_avail_filter hmem
  rw [if_neg hne]
  refine ⟨_, rfl, hmemNR, hne, ?_⟩
  intro hw
  rw [heff, if_neg hw] at hnp
  exact hnp

theorem tick_not_resting (st : GlobalCatState) (prevSt : Option CatMood)
    (now pick : Nat) (h : st.is_resting = false) :
    tick st prevSt now pick =
      if st.current = .wake ∧ now - st.last_updated < 10000 then
        ⟨st, prevSt, false, none⟩
      else
        moodStep st prevSt now pick := by
  unfold tick
  rw [h]

/-- Invariant carried along an autonomous run: every chosen mood is a
non-rest mood, differs from the mood current when it was chosen, and (when
the then-current mood was not `wake`) differs from the tracked previous
state at that moment. -/
def GoodRun : CatMood → Option CatMood → List CatMood → Prop
  | _, _, [] => True
  | c, p, m :: tl =>
    m ∈ nonRestMoods ∧ m ≠ c ∧ (c ≠ .wake → some m ≠ p) ∧ GoodRun m (some c) tl

theorem runTicks_good (inputs : List (Nat × Nat)) :
    ∀ (st : GlobalCatState) (prevSt : Option CatMood), st.is_resting = false →
      GoodRun st.current prevSt (runTicks st prevSt inputs) := by
  induction inputs with
  | nil =>
    intro st prevSt _
    exact trivial
  | cons input rest ih =>
    intro st prevSt h
    rw [runTicks, tick_not_resting st prevSt input.1 input.2 h]
    by_cases hw : st.current = .wake ∧ input.1 - st.last_updated < 10000
    · rw [if_pos hw]
      exact ih st prevSt h
    · rw [if_neg hw]
      obtain ⟨m, hms, hmem, hne, hp⟩ := moodStep_spec st prevSt input.1 input.2
      rw [hms]
      exact ⟨hmem, hne, hp, ih { st with current := m, last_updated := input.1 } (some st.current) h⟩

theorem nonRestMoods_ne_wake : ∀ m ∈ nonRestMoods, m ≠ CatMood.wake := by
  decide

theorem goodRun_mem : ∀ (ms : List CatMood) (c : CatMood) (p : Option CatMood),
    GoodRun c p ms → ∀ i (h : i < ms.length), ms.get ⟨i, h⟩ ∈ nonRestMoods := by
  intro ms
  induction ms with
  | nil =>
    intro c p _ i h
    exact absurd h (Nat.not_lt_zero i)
  | cons m tl ih =>
    intro c p hg i h
    match i with
    | 0 => exact hg.1
    | Nat.succ j => exact ih m (some c) hg.2.2.2 j (Nat.lt_of_succ_lt_succ h)

theorem goodRun_succ_ne : ∀ (ms : List CatMood) (c : CatMood) (p : Option CatMood),
    GoodRun c p ms → ∀ i (h : i + 1 < ms.length),
      ms.get ⟨i + 1, h⟩ ≠ ms.get ⟨i, Nat.lt_of_succ_lt h⟩ := by
  intro ms
  induction ms with
  | nil =>
    intro c p _ i h
    exact absurd h (Nat.not_lt_zero _)
  | cons m tl ih =>
    intro c p hg i h
    match i with
    | 0 =>
      match tl, hg with
      | m2 :: tl2, hg => exact hg.2.2.2.2.1
    | Nat.succ j => exact ih m (some c) hg.2.2.2 j (Nat.lt_of_succ_lt_succ h)

theorem goodRun_two_ne : ∀ (ms : List CatMood) (c : CatMood) (p : Option CatMood),
    GoodRun c p ms → ∀ i (h : i + 2 < ms.length),
      ms.get ⟨i + 2, h⟩ ≠ ms.get ⟨i, Nat.lt_of_succ_lt (Nat.lt_of_succ_lt h)⟩ := by
  intro ms
  induction ms with
  | nil =>
    intro c p _ i h
    exact absurd h (Nat.not_lt_zero _)
  | cons m tl ih =>
    intro c p hg i h
    match i with
    | 0 =>
      match tl, hg with
      | m2 :: m3 :: tl3, hg =>
        have hm2 : m2 ∈ nonRestMoods := hg.2.2.2.1
        have hne : some m3 ≠ some m := hg.2.2.2.2.2.2.2.2.1 (nonRestMoods_ne_wake m2 hm2)
        intro e
        exact hne (congrArg some e)
    | Nat.succ j => exact ih m (some c) hg.2.2.2 j (Nat.lt_of_succ_lt_succ h)

/-- C3: along any autonomous (non-resting) run of state-machine ticks, every
mood the cycle chooses comes from the non-rest mood set, no chosen mood
equals the immediately preceding chosen mood, and no chosen mood equals the
one chosen two steps back — for every possible random pick sequence. -/
theorem autonomous_no_repeat (st : GlobalCatState) (prevSt : Option CatMood)
    (inputs : List (Nat × Nat)) (h : st.is_resting = false) :
    (∀ i (hi : i < (runTicks st prevSt inputs).length),
      (runTicks st prevSt inputs).get ⟨i, hi⟩ ∈ nonRestMoods) ∧
    (∀ i (hi : i + 1 < (runTicks st prevSt inputs).length),
      (runTicks st prevSt inputs).get ⟨i + 1, hi⟩ ≠
        (runTicks st prevSt inputs).get ⟨i, Nat.lt_of_succ_lt hi⟩) ∧
    (∀ i (hi : i + 2 < (runTicks st prevSt inputs).length),
      (runTicks st prevSt inputs).get ⟨i + 2, hi⟩ ≠
        (runTicks st prevSt inputs).get ⟨i, Nat.lt_of_succ_lt (Nat.lt_of_succ_lt hi)⟩) :=
  have hg := runTicks_good inputs st prevSt h
  ⟨goodRun_mem _ _ _ hg, goodRun_succ_ne _ _ _ hg, goodRun_two_ne _ _ _ hg⟩

/-- C3 witness: a three-transition autonomous run from a playing state; the
second chosen mood differs from the first, and the third differs from both
the second and the first. -/
theorem autonomous_no_repeat_witness :
    (⟨.playing, false, none, none, none, 0⟩ : GlobalCatState).is_resting = false ∧
    (runTicks ⟨.playing, false, none, none, none, 0⟩ none
        [(10000, 0), (20000, 0), (30000, 0)]).length = 3 ∧
    (runTicks ⟨.playing, false, none, none, none, 0⟩ none
        [(10000, 0), (20000, 0), (30000, 0)]).get ⟨1, by decide⟩ ≠
      (runTicks ⟨.playing, false, none, none, none, 0⟩ none
        [(10000, 0), (20000, 0), (30000, 0)]).get ⟨0, by decide⟩ ∧
    (runTicks ⟨.playing, false, none, none, none, 0⟩ none
        [(10000, 0), (20000, 0), (30000, 0)]).get ⟨2, by decide⟩ ≠
      (runTicks ⟨.playing, false, none, none, none, 0⟩ none
        [(10000, 0), (20000, 0), (30000, 0)]).get ⟨0, by decide⟩ :=
  ⟨rfl, by decide,
    (autonomous_no_repeat ⟨.playing, false, none, none, none, 0⟩ none
      [(10000, 0), (20000, 0), (30000, 0)] rfl).2.1 0 (by decide),
    (autonomous_no_repeat ⟨.playing, false, none, none, none, 0⟩ none
      [(10000, 0), (20000, 0), (30000, 0)] rfl).2.2 0 (by decide)⟩
